import Mathlib

/-!
# Verification of the space-simulation core (src/main.py)

Shallow embedding of the core data model and operations of the repository:
`GameState`, `Asteroid` (with `update` and `mine`), and `SpaceSimBackend`
(with `update`, `start_pause_game`, `set_time_scale`, `launch_ship`).
Real-valued quantities are modelled as rationals; the Python `int` fuel
counter is modelled as `ℤ`.  Qt signal emissions are modelled as explicit
event lists returned alongside the mutated state, in source order.
-/

/-- The lifecycle state enum from `src/main.py` lines 26-28.
The source defines exactly two variants, `PLAYING = 2` and `PAUSED = 3`. -/
inductive GameState where
  | PLAYING
  | PAUSED
deriving DecidableEq, Repr, Fintype

/-- An asteroid record (`Asteroid.__init__`): id, 3-component position and
velocity, raw mass, purity. -/
structure Asteroid where
  id : String
  position : ℚ × ℚ × ℚ
  velocity : ℚ × ℚ × ℚ
  raw_mass : ℚ
  purity : ℚ
deriving DecidableEq, Repr

/-- `Asteroid.material_mass` property: `raw_mass * purity`, recomputed. -/
def Asteroid.material_mass (a : Asteroid) : ℚ :=
  a.raw_mass * a.purity

/-- `Asteroid.update(dt)` (lines 79-82): componentwise
`position = (x + vx*dt, y + vy*dt, z + vz*dt)`.  No validation of `dt`
appears in the source. -/
def Asteroid.update (a : Asteroid) (dt : ℚ) : Asteroid :=
  { a with position :=
      (a.position.1 + a.velocity.1 * dt,
       a.position.2.1 + a.velocity.2.1 * dt,
       a.position.2.2 + a.velocity.2.2 * dt) }

/-- `Asteroid.mine(amount)` (lines 84-87): `mined_mass = min(amount, raw_mass)`,
`raw_mass -= mined_mass`, returns `mined_mass * purity`.  No validation of
`amount` appears in the source. -/
def Asteroid.mine (a : Asteroid) (amount : ℚ) : Asteroid × ℚ :=
  let mined_mass := min amount a.raw_mass
  ({ a with raw_mass := a.raw_mass - mined_mass }, mined_mass * a.purity)

/-- One emitted backend signal (the `pyqtSignal` declarations at
lines 113-117), carrying the payload passed to `emit` at emission time. -/
inductive Event where
  | game_state_changed (s : GameState)
  | time_updated (t : ℚ)
  | asteroid_data_updated (asts : List Asteroid)
  | fuel_updated (f : ℤ)
  | launch_message (msg : String)
deriving DecidableEq, Repr

/-- The mutable backend state (`SpaceSimBackend.__init__`, lines 119-128):
`fuel`, `total_seconds`, `time_scale`, `current_game_state`, `asteroids`.
The `GameLoop` thread object is scheduling machinery, not state. -/
structure SpaceSimBackend where
  fuel : ℤ
  total_seconds : ℚ
  time_scale : ℚ
  current_game_state : GameState
  asteroids : List Asteroid
deriving DecidableEq, Repr

/-- `SpaceSimBackend.__init__` (lines 119-128) modulo the randomized
asteroid sampling, which is parameterized here by the sampled list:
`fuel = 100`, `total_seconds = 0.0`, `time_scale = 1.0`,
`current_game_state = GameState.PLAYING`. -/
def SpaceSimBackend.init (asts : List Asteroid) : SpaceSimBackend :=
  { fuel := 100
    total_seconds := 0
    time_scale := 1
    current_game_state := GameState.PLAYING
    asteroids := asts }

/-- `SpaceSimBackend.update(dt)` (lines 130-137).  If the state is
`PLAYING`: `total_seconds += dt * time_scale`, emit `time_updated` with the
new total, integrate each asteroid with `dt * time_scale` in collection
order, emit `asteroid_data_updated` with the updated list.  Otherwise
nothing happens.  Events are listed in emission order. -/
def SpaceSimBackend.update (b : SpaceSimBackend) (dt : ℚ) :
    SpaceSimBackend × List Event :=
  if b.current_game_state = GameState.PLAYING then
    let t := b.total_seconds + dt * b.time_scale
    let asts := b.asteroids.map (fun a => a.update (dt * b.time_scale))
    ({ b with total_seconds := t, asteroids := asts },
     [Event.time_updated t, Event.asteroid_data_updated asts])
  else
    (b, [])

/-- `SpaceSimBackend.start_pause_game` (lines 139-144): toggles
`PLAYING ↔ PAUSED` and always emits `game_state_changed` with the new
state. -/
def SpaceSimBackend.start_pause_game (b : SpaceSimBackend) :
    SpaceSimBackend × List Event :=
  let b' :=
    match b.current_game_state with
    | GameState.PLAYING => { b with current_game_state := GameState.PAUSED }
    | GameState.PAUSED => { b with current_game_state := GameState.PLAYING }
  (b', [Event.game_state_changed b'.current_game_state])

/-- `SpaceSimBackend.set_time_scale(scale)` (lines 146-147): unconditional
assignment, no validation, no emission. -/
def SpaceSimBackend.set_time_scale (b : SpaceSimBackend) (scale : ℚ) :
    SpaceSimBackend :=
  { b with time_scale := scale }

/-- `SpaceSimBackend.launch_ship` (lines 149-155): if `fuel > 0`, decrement
by 10 and emit the success message; otherwise emit the failure message;
in BOTH cases finish by emitting `fuel_updated` with the current fuel. -/
def SpaceSimBackend.launch_ship (b : SpaceSimBackend) :
    SpaceSimBackend × List Event :=
  if b.fuel > 0 then
    let b' := { b with fuel := b.fuel - 10 }
    (b', [Event.launch_message
            ("Launching ship! Fuel remaining: " ++ toString b'.fuel ++ "%"),
          Event.fuel_updated b'.fuel])
  else
    (b, [Event.launch_message "Not enough fuel to launch!",
         Event.fuel_updated b.fuel])

/-- A command accepted by the backend (the slots connected at
lines 127 and 362-364). -/
inductive Command where
  | update (dt : ℚ)
  | start_pause_game
  | set_time_scale (scale : ℚ)
  | launch_ship
deriving DecidableEq, Repr

/-- Executing one command on the backend state, discarding emissions. -/
def SpaceSimBackend.exec (b : SpaceSimBackend) : Command → SpaceSimBackend
  | Command.update dt => (b.update dt).1
  | Command.start_pause_game => b.start_pause_game.1
  | Command.set_time_scale scale => b.set_time_scale scale
  | Command.launch_ship => b.launch_ship.1

/-- Executing a sequence of commands left to right. -/
def SpaceSimBackend.execAll (b : SpaceSimBackend) (cs : List Command) :
    SpaceSimBackend :=
  cs.foldl SpaceSimBackend.exec b

/-- One atomic step of `SpaceSimBackend.update`, distinguishing state
mutations from signal emissions, used to settle the intra-call ordering
claim.  The payload of a mutation step is the value written; the payload
of an emission step is the value passed to `emit`. -/
inductive TickStep where
  | set_total_seconds (t : ℚ)
  | emit_time_updated (t : ℚ)
  | set_asteroids (asts : List Asteroid)
  | emit_asteroid_data_updated (asts : List Asteroid)
deriving DecidableEq, Repr

/-- The atomic-step trace of `SpaceSimBackend.update` (lines 130-137), in
source execution order: mutate `total_seconds` (line 132), emit
`time_updated` (line 133), mutate the asteroid list (lines 135-136), emit
`asteroid_data_updated` (line 137); empty when not `PLAYING`. -/
def SpaceSimBackend.updateTrace (b : SpaceSimBackend) (dt : ℚ) :
    List TickStep :=
  if b.current_game_state = GameState.PLAYING then
    let t := b.total_seconds + dt * b.time_scale
    let asts := b.asteroids.map (fun a => a.update (dt * b.time_scale))
    [TickStep.set_total_seconds t,
     TickStep.emit_time_updated t,
     TickStep.set_asteroids asts,
     TickStep.emit_asteroid_data_updated asts]
  else []

/-- Applying one atomic step to the state (emissions leave it unchanged). -/
def applyTickStep (b : SpaceSimBackend) : TickStep → SpaceSimBackend
  | TickStep.set_total_seconds t => { b with total_seconds := t }
  | TickStep.set_asteroids asts => { b with asteroids := asts }
  | TickStep.emit_time_updated _ => b
  | TickStep.emit_asteroid_data_updated _ => b

/-- The events emitted along a trace, in order. -/
def traceEvents : List TickStep → List Event
  | [] => []
  | TickStep.set_total_seconds _ :: rest => traceEvents rest
  | TickStep.set_asteroids _ :: rest => traceEvents rest
  | TickStep.emit_time_updated t :: rest =>
      Event.time_updated t :: traceEvents rest
  | TickStep.emit_asteroid_data_updated asts :: rest =>
      Event.asteroid_data_updated asts :: traceEvents rest

/-- Coherence of the two models of `update`: folding the atomic-step trace
reproduces the state `update` computes, and the trace's emissions are
exactly the events `update` emits, in the same order. -/
theorem updateTrace_coherent (b : SpaceSimBackend) (dt : ℚ) :
    (b.updateTrace dt).foldl applyTickStep b = (b.update dt).1 ∧
    traceEvents (b.updateTrace dt) = (b.update dt).2 := by
  unfold SpaceSimBackend.updateTrace SpaceSimBackend.update
  by_cases h : b.current_game_state = GameState.PLAYING <;>
    simp [h, applyTickStep, traceEvents]

/-! ## Concrete fixtures used by witnesses and counterexamples -/

/-- A concrete asteroid used to instantiate theorems. -/
def demoAsteroid : Asteroid :=
  { id := "A0B1C2D"
    position := (1, 2, 3)
    velocity := (4, 5, 6)
    raw_mass := 10
    purity := 1/2 }

/-- A concrete backend in the `PLAYING` state. -/
def playingBackend : SpaceSimBackend :=
  SpaceSimBackend.init [demoAsteroid]

/-- A concrete backend in the `PAUSED` state. -/
def pausedBackend : SpaceSimBackend :=
  { SpaceSimBackend.init [demoAsteroid] with
      current_game_state := GameState.PAUSED }

/-- A concrete backend whose fuel is exhausted. -/
def emptyFuelBackend : SpaceSimBackend :=
  { SpaceSimBackend.init [] with fuel := 0 }

/-! ## C9: integration is linear in dt, and dt = 0 is a no-op -/

/-- C9: for every entity, `integrate` is linear in `dt`: the position after
`Asteroid.update dt` equals the position before plus `velocity * dt`
component-wise, and `Asteroid.update 0` leaves the asteroid unchanged. -/
theorem asteroid_update_linear (a : Asteroid) (dt : ℚ) :
    (a.update dt).position =
      (a.position.1 + a.velocity.1 * dt,
       a.position.2.1 + a.velocity.2.1 * dt,
       a.position.2.2 + a.velocity.2.2 * dt) ∧
    a.update 0 = a := by
  constructor
  · rfl
  · simp [Asteroid.update]

/-! ## C10: frame conditions of the entity operations -/

/-- C10: `Asteroid.update` mutates only `position` (`id`, `velocity`,
`raw_mass`, `purity` are unchanged), and `Asteroid.mine` mutates only
`raw_mass` (`id`, `position`, `velocity`, `purity` are unchanged). -/
theorem asteroid_frame_conditions (a : Asteroid) (dt amount : ℚ) :
    ((a.update dt).id = a.id ∧
     (a.update dt).velocity = a.velocity ∧
     (a.update dt).raw_mass = a.raw_mass ∧
     (a.update dt).purity = a.purity) ∧
    ((a.mine amount).1.id = a.id ∧
     (a.mine amount).1.position = a.position ∧
     (a.mine amount).1.velocity = a.velocity ∧
     (a.mine amount).1.purity = a.purity) :=
  ⟨⟨rfl, rfl, rfl, rfl⟩, ⟨rfl, rfl, rfl, rfl⟩⟩

/-! ## C6: mining arithmetic -/

/-- C6: for every entity and every `amount ≥ 0`, `mine` extracts
`mined = min(amount, rawMass)`, leaves `rawMass = rawMass - mined`
(hence never negative), and returns `mined * purity`; after
`mine(rawMass)` exhausts the entity, a further `mine` with any positive
amount returns `0`. -/
theorem asteroid_mine_spec (a : Asteroid) (amount : ℚ) (h : 0 ≤ amount) :
    (a.mine amount).1.raw_mass = a.raw_mass - min amount a.raw_mass ∧
    (a.mine amount).2 = min amount a.raw_mass * a.purity ∧
    0 ≤ (a.mine amount).1.raw_mass ∧
    ∀ amount2 : ℚ, 0 < amount2 → ((a.mine a.raw_mass).1.mine amount2).2 = 0 := by
  refine ⟨rfl, rfl, ?_, ?_⟩
  · show 0 ≤ a.raw_mass - min amount a.raw_mass
    exact sub_nonneg.mpr (min_le_right amount a.raw_mass)
  · intro amount2 h2
    show min amount2 (a.mine a.raw_mass).1.raw_mass * a.purity = 0
    have hz : (a.mine a.raw_mass).1.raw_mass = 0 := by
      show a.raw_mass - min a.raw_mass a.raw_mass = 0
      simp
    rw [hz, min_eq_right h2.le, zero_mul]

/-- Witness for `asteroid_mine_spec` at `demoAsteroid` and `amount = 4`. -/
theorem asteroid_mine_spec_witness :
    (demoAsteroid.mine 4).1.raw_mass = 6 ∧
    (demoAsteroid.mine 4).2 = 2 ∧
    ((demoAsteroid.mine demoAsteroid.raw_mass).1.mine 3).2 = 0 := by
  have h := asteroid_mine_spec demoAsteroid 4 (by norm_num)
  refine ⟨?_, ?_, h.2.2.2 3 (by norm_num)⟩
  · rw [h.1]; norm_num [demoAsteroid, min_def]
  · rw [h.2.1]; norm_num [demoAsteroid, min_def]

/-! ## C5: negative arguments are NOT rejected (spec claims InvalidArgument) -/

/-- C5 counterexample: negative arguments are accepted and DO mutate state,
refuting the claim that they fail with `InvalidArgument` before mutation:
`mine(-5)` on a 10-mass asteroid raises `raw_mass` to 15, `update(-1)`
moves the position, and `set_time_scale(-1)` stores the negative scale. -/
theorem negative_args_rejected_cex :
    (demoAsteroid.mine (-5)).1.raw_mass = 15 ∧
    (demoAsteroid.update (-1)).position ≠ demoAsteroid.position ∧
    ((SpaceSimBackend.init []).set_time_scale (-1)).time_scale = -1 := by
  refine ⟨?_, ?_, rfl⟩
  · norm_num [Asteroid.mine, demoAsteroid, min_def]
  · norm_num [Asteroid.update, demoAsteroid]

/-- C5 amended: the source performs no validation — for every negative
argument the operation succeeds and mutates state: `Asteroid.update`
applies the linear position update for `dt < 0`, `Asteroid.mine` with
`amount < 0` (and `amount ≤ rawMass`) strictly increases `rawMass` by
`-amount` and returns the negative yield `amount * purity`, and
`set_time_scale` stores any negative scale. -/
theorem negative_args_accepted (a : Asteroid) (b : SpaceSimBackend)
    (amount dt scale : ℚ)
    (hamount : amount < 0) (hmass : amount ≤ a.raw_mass)
    (hdt : dt < 0) (hscale : scale < 0) :
    (a.mine amount).1.raw_mass = a.raw_mass - amount ∧
    a.raw_mass < (a.mine amount).1.raw_mass ∧
    (a.mine amount).2 = amount * a.purity ∧
    (a.update dt).position =
      (a.position.1 + a.velocity.1 * dt,
       a.position.2.1 + a.velocity.2.1 * dt,
       a.position.2.2 + a.velocity.2.2 * dt) ∧
    (b.set_time_scale scale).time_scale = scale := by
  have hmin : min amount a.raw_mass = amount := min_eq_left hmass
  refine ⟨?_, ?_, ?_, rfl, rfl⟩
  · show a.raw_mass - min amount a.raw_mass = a.raw_mass - amount
    rw [hmin]
  · show a.raw_mass < a.raw_mass - min amount a.raw_mass
    rw [hmin]
    linarith
  · show min amount a.raw_mass * a.purity = amount * a.purity
    rw [hmin]

/-- Witness for `negative_args_accepted` at concrete inputs. -/
theorem negative_args_accepted_witness :
    (demoAsteroid.mine (-5)).1.raw_mass = demoAsteroid.raw_mass - (-5) ∧
    demoAsteroid.raw_mass < (demoAsteroid.mine (-5)).1.raw_mass ∧
    (demoAsteroid.mine (-5)).2 = (-5) * demoAsteroid.purity ∧
    (demoAsteroid.update (-1)).position =
      (demoAsteroid.position.1 + demoAsteroid.velocity.1 * (-1),
       demoAsteroid.position.2.1 + demoAsteroid.velocity.2.1 * (-1),
       demoAsteroid.position.2.2 + demoAsteroid.velocity.2.2 * (-1)) ∧
    ((SpaceSimBackend.init []).set_time_scale (-1)).time_scale = -1 :=
  negative_args_accepted demoAsteroid (SpaceSimBackend.init []) (-5) (-1) (-1)
    (by norm_num) (by norm_num [demoAsteroid]) (by norm_num) (by norm_num)

/-! ## C1: advance semantics -/

/-- C1: `SpaceSimBackend.update` is a no-op (state unchanged, nothing
emitted) unless the lifecycle state is `PLAYING`; while `PLAYING` it
increases `total_seconds` by exactly `dt * time_scale` and integrates
every asteroid in collection order with delta `dt * time_scale`. -/
theorem update_advance_spec (b : SpaceSimBackend) (dt : ℚ) :
    (b.current_game_state = GameState.PLAYING →
      (b.update dt).1.total_seconds = b.total_seconds + dt * b.time_scale ∧
      (b.update dt).1.asteroids =
        b.asteroids.map (fun a => a.update (dt * b.time_scale)) ∧
      (b.update dt).1.fuel = b.fuel ∧
      (b.update dt).1.time_scale = b.time_scale ∧
      (b.update dt).1.current_game_state = b.current_game_state) ∧
    (b.current_game_state ≠ GameState.PLAYING →
      (b.update dt).1 = b ∧ (b.update dt).2 = []) := by
  unfold SpaceSimBackend.update
  by_cases h : b.current_game_state = GameState.PLAYING <;>
    simp [h]

/-- Witness for `update_advance_spec`: a `PLAYING` backend advances, a
`PAUSED` backend is untouched. -/
theorem update_advance_spec_witness :
    ((playingBackend.update 2).1.total_seconds =
        playingBackend.total_seconds + 2 * playingBackend.time_scale ∧
      (playingBackend.update 2).1.asteroids =
        playingBackend.asteroids.map
          (fun a => a.update (2 * playingBackend.time_scale)) ∧
      (playingBackend.update 2).1.fuel = playingBackend.fuel ∧
      (playingBackend.update 2).1.time_scale = playingBackend.time_scale ∧
      (playingBackend.update 2).1.current_game_state =
        playingBackend.current_game_state) ∧
    ((pausedBackend.update 2).1 = pausedBackend ∧
      (pausedBackend.update 2).2 = []) :=
  ⟨(update_advance_spec playingBackend 2).1 rfl,
   (update_advance_spec pausedBackend 2).2 (by simp [pausedBackend])⟩

/-! ## C2: the lifecycle state space (spec claims a third Start state) -/

/-- C2 counterexample: the `GameState` enum of `src/main.py` has exactly
TWO values (`PLAYING`, `PAUSED`) — there is no `Start` state — and the
state set at world initialization is `PLAYING`, not `Start`.  This
refutes the claim of a three-valued lifecycle with initial `Start` and an
acknowledge gate. -/
theorem lifecycle_start_state_cex :
    Fintype.card GameState = 2 ∧
    (SpaceSimBackend.init []).current_game_state = GameState.PLAYING :=
  ⟨by decide, rfl⟩

/-- C2 amended: the lifecycle state ranges over exactly the two values
`PLAYING` and `PAUSED`; `PLAYING` is the initial state set at world
initialization (no `Start` state and no acknowledge gate exist), and the
toggle command moves between the two values, so no other state is ever
reached. -/
theorem lifecycle_two_states (asts : List Asteroid) (b : SpaceSimBackend) :
    Fintype.card GameState = 2 ∧
    (SpaceSimBackend.init asts).current_game_state = GameState.PLAYING ∧
    b.start_pause_game.1.current_game_state =
      (if b.current_game_state = GameState.PLAYING
       then GameState.PAUSED else GameState.PLAYING) := by
  refine ⟨by decide, rfl, ?_⟩
  unfold SpaceSimBackend.start_pause_game
  cases h : b.current_game_state <;> simp [h]

/-! ## C4: events emitted by launch_ship (spec claims fuel event only on change) -/

/-- C4 counterexample: calling `launch_ship` with `fuel = 0` takes the
failure path — fuel does NOT change — yet a `fuel_updated` event is still
emitted (line 155 runs unconditionally), refuting the claim that a
fuel-changed event is emitted only on the path where fuel changes. -/
theorem launch_fuel_event_cex :
    emptyFuelBackend.launch_ship.1.fuel = emptyFuelBackend.fuel ∧
    emptyFuelBackend.launch_ship.2 =
      [Event.launch_message "Not enough fuel to launch!",
       Event.fuel_updated 0] :=
  ⟨rfl, rfl⟩

/-- C4 amended: every call to `launch_ship` emits exactly one log-message
event carrying the returned text followed by one `fuel_updated` event
carrying the post-call fuel — the fuel event is emitted on every call,
also on the failure path where fuel does not change. -/
theorem launch_events_always (b : SpaceSimBackend) :
    b.launch_ship.2 =
      [Event.launch_message
        (if 0 < b.fuel
         then "Launching ship! Fuel remaining: " ++ toString (b.fuel - 10) ++ "%"
         else "Not enough fuel to launch!"),
       Event.fuel_updated b.launch_ship.1.fuel] := by
  unfold SpaceSimBackend.launch_ship
  by_cases h : b.fuel > 0 <;> simp [h]

/-! ## C8: intra-tick ordering of mutations and emissions -/

/-- C8: within one `update` call that performs work (state `PLAYING`), the
atomic-step trace is exactly: mutate `total_seconds`, emit `time_updated`,
mutate the asteroid list, emit `asteroid_data_updated`.  Hence the
time-changed event precedes the entities-changed event, and each emission
occurs strictly after the mutation whose post-value it carries
(`updateTrace_coherent` ties this trace to `SpaceSimBackend.update`). -/
theorem update_event_ordering (b : SpaceSimBackend) (dt : ℚ)
    (h : b.current_game_state = GameState.PLAYING) :
    b.updateTrace dt =
      [TickStep.set_total_seconds (b.update dt).1.total_seconds,
       TickStep.emit_time_updated (b.update dt).1.total_seconds,
       TickStep.set_asteroids (b.update dt).1.asteroids,
       TickStep.emit_asteroid_data_updated (b.update dt).1.asteroids] := by
  unfold SpaceSimBackend.updateTrace SpaceSimBackend.update
  simp [h]

/-- Witness for `update_event_ordering` at a concrete `PLAYING` backend. -/
theorem update_event_ordering_witness :
    playingBackend.updateTrace 1 =
      [TickStep.set_total_seconds (playingBackend.update 1).1.total_seconds,
       TickStep.emit_time_updated (playingBackend.update 1).1.total_seconds,
       TickStep.set_asteroids (playingBackend.update 1).1.asteroids,
       TickStep.emit_asteroid_data_updated
         (playingBackend.update 1).1.asteroids] :=
  update_event_ordering playingBackend 1 rfl

/-! ## C3: launch fuel arithmetic -/

/-- One launch step on the backend state (events discarded). -/
def launchState (b : SpaceSimBackend) : SpaceSimBackend :=
  b.launch_ship.1

/-- `launch_ship` preserves the invariant `0 ≤ fuel ∧ 10 ∣ fuel`: a
positive multiple of 10 is at least 10, so the decrement cannot cross 0. -/
theorem launch_fuel_invariant (b : SpaceSimBackend)
    (h0 : 0 ≤ b.fuel) (hd : 10 ∣ b.fuel) :
    0 ≤ (launchState b).fuel ∧ 10 ∣ (launchState b).fuel := by
  unfold launchState SpaceSimBackend.launch_ship
  by_cases h : b.fuel > 0
  · have h10 : (10 : ℤ) ≤ b.fuel := Int.le_of_dvd h hd
    simp [h]
    exact ⟨by omega, hd⟩
  · simp [h]
    exact ⟨h0, hd⟩

/-- Iterating launches from the initial backend keeps
`0 ≤ fuel ∧ 10 ∣ fuel`. -/
theorem launch_iter_invariant (n : ℕ) :
    0 ≤ (launchState^[n] (SpaceSimBackend.init [])).fuel ∧
    10 ∣ (launchState^[n] (SpaceSimBackend.init [])).fuel := by
  induction n with
  | zero => exact ⟨by decide, by decide⟩
  | succ n ih =>
    rw [Function.iterate_succ_apply']
    exact launch_fuel_invariant _ ih.1 ih.2

/-- C3: `launch_ship` decrements fuel by exactly 10 and reports success
when `fuel > 0`, otherwise reports failure and leaves the state unchanged;
starting from the initial backend (`fuel = 100`), the first ten launches
drive fuel down by 10 each to 0, the eleventh leaves fuel at 0 and reports
failure, and fuel never becomes negative. -/
theorem launch_ship_spec (b : SpaceSimBackend) (n : ℕ) :
    (0 < b.fuel →
      b.launch_ship.1.fuel = b.fuel - 10 ∧
      b.launch_ship.2.head? = some (Event.launch_message
        ("Launching ship! Fuel remaining: " ++ toString (b.fuel - 10) ++ "%"))) ∧
    (b.fuel ≤ 0 →
      b.launch_ship.1 = b ∧
      b.launch_ship.2.head? =
        some (Event.launch_message "Not enough fuel to launch!")) ∧
    (n ≤ 10 →
      (launchState^[n] (SpaceSimBackend.init [])).fuel = 100 - 10 * n) ∧
    (launchState^[11] (SpaceSimBackend.init [])).fuel = 0 ∧
    (launchState^[10] (SpaceSimBackend.init [])).launch_ship.2.head? =
      some (Event.launch_message "Not enough fuel to launch!") ∧
    0 ≤ (launchState^[n] (SpaceSimBackend.init [])).fuel := by
  refine ⟨?_, ?_, ?_, by decide, by decide, (launch_iter_invariant n).1⟩
  · intro h
    unfold SpaceSimBackend.launch_ship
    simp [h]
  · intro h
    have h' : ¬ b.fuel > 0 := by omega
    unfold SpaceSimBackend.launch_ship
    simp [h']
  · intro hn
    have hb : ∀ m : ℕ, m ≤ 10 →
        (launchState^[m] (SpaceSimBackend.init [])).fuel = 100 - 10 * m := by
      decide
    exact hb n hn

/-- Witness for `launch_ship_spec`: a fueled launch succeeds, an empty
launch is a no-op, and three launches from the start leave 70 fuel. -/
theorem launch_ship_spec_witness :
    playingBackend.launch_ship.1.fuel = playingBackend.fuel - 10 ∧
    emptyFuelBackend.launch_ship.1 = emptyFuelBackend ∧
    (launchState^[3] (SpaceSimBackend.init [])).fuel = 100 - 10 * (3 : ℕ) :=
  ⟨((launch_ship_spec playingBackend 3).1 (by decide)).1,
   ((launch_ship_spec emptyFuelBackend 3).2.1 (by decide)).1,
   (launch_ship_spec (SpaceSimBackend.init []) 3).2.2.1 (by norm_num)⟩

/-! ## C7: elapsed time monotonicity (spec claims it over all operations) -/

/-- The argument discipline the scheduler and the UI maintain in practice:
`update` is called with the nonnegative nominal delta and `set_time_scale`
with the nonnegative spinbox value.  The backend itself does not enforce
this. -/
def Command.nonNegArgs : Command → Prop
  | Command.update dt => 0 ≤ dt
  | Command.set_time_scale scale => 0 ≤ scale
  | Command.start_pause_game => True
  | Command.launch_ship => True

/-- A single command with nonnegative arguments never decreases
`total_seconds` and keeps `time_scale` nonnegative. -/
theorem exec_step_mono (b : SpaceSimBackend) (c : Command)
    (hok : c.nonNegArgs) (hts : 0 ≤ b.time_scale) :
    b.total_seconds ≤ (b.exec c).total_seconds ∧
    0 ≤ (b.exec c).time_scale := by
  cases c with
  | update dt =>
    simp only [Command.nonNegArgs] at hok
    unfold SpaceSimBackend.exec SpaceSimBackend.update
    by_cases h : b.current_game_state = GameState.PLAYING
    · simp [h]
      exact ⟨mul_nonneg hok hts, hts⟩
    · simp [h]
      exact hts
  | start_pause_game =>
    unfold SpaceSimBackend.exec SpaceSimBackend.start_pause_game
    cases h : b.current_game_state <;> simp <;> exact hts
  | set_time_scale scale =>
    simp only [Command.nonNegArgs] at hok
    exact ⟨le_refl _, hok⟩
  | launch_ship =>
    unfold SpaceSimBackend.exec SpaceSimBackend.launch_ship
    by_cases h : b.fuel > 0 <;> simp [h] <;> exact hts

/-- Over a whole command sequence with nonnegative arguments,
`total_seconds` is non-decreasing and `time_scale` stays nonnegative. -/
theorem execAll_mono (cs : List Command) :
    ∀ b : SpaceSimBackend, (∀ c ∈ cs, c.nonNegArgs) → 0 ≤ b.time_scale →
      b.total_seconds ≤ (b.execAll cs).total_seconds ∧
      0 ≤ (b.execAll cs).time_scale := by
  induction cs with
  | nil =>
    intro b _ hts
    exact ⟨le_refl _, hts⟩
  | cons c cs ih =>
    intro b hok hts
    have step := exec_step_mono b c (hok c (List.mem_cons_self c cs)) hts
    have rest := ih (b.exec c)
      (fun x hx => hok x (List.mem_cons_of_mem c hx)) step.2
    exact ⟨le_trans step.1 rest.1, rest.2⟩

/-- While not `PLAYING`, no command changes `total_seconds`. -/
theorem exec_frozen (b : SpaceSimBackend) (c : Command)
    (h : b.current_game_state ≠ GameState.PLAYING) :
    (b.exec c).total_seconds = b.total_seconds := by
  cases c with
  | update dt =>
    unfold SpaceSimBackend.exec SpaceSimBackend.update
    simp [h]
  | start_pause_game =>
    unfold SpaceSimBackend.exec SpaceSimBackend.start_pause_game
    cases hs : b.current_game_state <;> simp
  | set_time_scale scale => rfl
  | launch_ship =>
    unfold SpaceSimBackend.exec SpaceSimBackend.launch_ship
    by_cases hf : b.fuel > 0 <;> simp [hf]

/-- C7 counterexample: the claim fails over arbitrary operation sequences
because `set_time_scale` accepts negative scales — after
`set_time_scale(-1)` the backend is still `PLAYING` with
`total_seconds = 0`, and one `update(1)` drives `total_seconds` to `-1`:
an advance while `PLAYING` that DECREASES it below zero. -/
theorem elapsed_monotone_cex :
    ((SpaceSimBackend.init []).set_time_scale (-1)).current_game_state =
      GameState.PLAYING ∧
    ((SpaceSimBackend.init []).set_time_scale (-1)).total_seconds = 0 ∧
    ((SpaceSimBackend.init []).execAll
        [Command.set_time_scale (-1), Command.update 1]).total_seconds = -1 ∧
    ¬ (0 : ℚ) ≤ -1 := by
  refine ⟨rfl, rfl, ?_, by norm_num⟩
  show ((((SpaceSimBackend.init []).set_time_scale (-1)).update 1).1).total_seconds = -1
  norm_num [SpaceSimBackend.init, SpaceSimBackend.set_time_scale,
    SpaceSimBackend.update]

/-- C7 amended: provided every `update` in the sequence uses `dt ≥ 0` and
every `set_time_scale` uses `scale ≥ 0` (as the fixed-rate loop and the
spinbox guarantee), and the starting `time_scale` is nonnegative,
`total_seconds` is monotonically non-decreasing across the sequence and
stays nonnegative once nonnegative; and while not `PLAYING` every single
command leaves `total_seconds` unchanged. -/
theorem elapsed_seconds_monotone (b : SpaceSimBackend) (cs : List Command)
    (c : Command) (hok : ∀ x ∈ cs, x.nonNegArgs) (hts : 0 ≤ b.time_scale) :
    b.total_seconds ≤ (b.execAll cs).total_seconds ∧
    (0 ≤ b.total_seconds → 0 ≤ (b.execAll cs).total_seconds) ∧
    (b.current_game_state ≠ GameState.PLAYING →
      (b.exec c).total_seconds = b.total_seconds) := by
  have h := execAll_mono cs b hok hts
  exact ⟨h.1, fun h0 => le_trans h0 h.1, fun hne => exec_frozen b c hne⟩

/-- Witness for `elapsed_seconds_monotone` on a concrete paused backend
and a concrete well-formed command sequence. -/
theorem elapsed_seconds_monotone_witness :
    pausedBackend.total_seconds ≤
      (pausedBackend.execAll [Command.update 1, Command.launch_ship,
        Command.set_time_scale 2, Command.update 2]).total_seconds ∧
    0 ≤ (pausedBackend.execAll [Command.update 1, Command.launch_ship,
        Command.set_time_scale 2, Command.update 2]).total_seconds ∧
    (pausedBackend.exec Command.start_pause_game).total_seconds =
      pausedBackend.total_seconds := by
  have h := elapsed_seconds_monotone pausedBackend
    [Command.update 1, Command.launch_ship,
     Command.set_time_scale 2, Command.update 2]
    Command.start_pause_game
    (by intro x hx; fin_cases hx <;> norm_num [Command.nonNegArgs])
    (by norm_num [pausedBackend, SpaceSimBackend.init])
  exact ⟨h.1,
    h.2.1 (by norm_num [pausedBackend, SpaceSimBackend.init]),
    h.2.2 (by simp [pausedBackend])⟩
